import Mathlib

/-!
Shallow embedding of the bolt-to-gitlab core, for checking the
specification's claims against the code.

Sources embedded here:
- src/src/lib/ConnectionManager.ts        (namespace ConnectionManager)
- src/unnamed/part_001                    (namespace ConnectionManagerV2;
  a second variant of the ConnectionManager class whose connect() first
  calls disconnect())
- src/unnamed/part_000                    (ZipProcessor)
- src/src/services/GitLabService.ts       (GitLabService.request, ZipHandler)
- src/src/background/BackgroundService.ts (BackgroundService)

The chrome.runtime port transport is modelled by a boolean `port` flag
(null / non-null) plus an observation list `sent` recording, in order, the
messages actually handed to port.postMessage.  postMessage is modelled as
succeeding whenever the port is present (the happy transport path; the
source's catch around postMessage only re-queues on a dying port).
-/

/-- A message exchanged over a connection channel (src/src/lib/types.ts
`Message`: a type tag plus opaque payload). -/
structure Message where
  type : String
  data : String
  deriving Repr, DecidableEq

/-- State of one ConnectionManager instance: whether `this.port` is
non-null, the pending `messageQueue`, the `retryCount`, and the
observation log `sent` of messages posted to the port, in order. -/
structure CMState where
  port : Bool
  messageQueue : List Message
  retryCount : Nat
  sent : List Message
  deriving Repr, DecidableEq

namespace ConnectionManager

/-- Fresh instance: port null, empty queue, retryCount 0. -/
def initState : CMState :=
  { port := false, messageQueue := [], retryCount := 0, sent := [] }

/-- `sendMessage` (src/src/lib/ConnectionManager.ts lines 96-107): if the
port exists, post immediately; otherwise push onto the queue. -/
def sendMessage (m : Message) (s : CMState) : CMState :=
  if s.port then { s with sent := s.sent ++ [m] }
  else { s with messageQueue := s.messageQueue ++ [m] }

/-- `processMessageQueue` (lines 81-94): while the queue is non-empty and
the port exists, shift the head and post it. -/
def processMessageQueue (s : CMState) : CMState :=
  if s.port then { s with sent := s.sent ++ s.messageQueue, messageQueue := [] }
  else s

/-- `connect` (lines 14-40): on success `this.port` is set and true is
returned; on failure the state is only notified.  The queue is not
flushed here. -/
def connect (ok : Bool) (s : CMState) : CMState :=
  if ok then { s with port := true } else s

/-- `reconnect` (lines 73-79): connect, and on success reset the retry
counter and flush the queue. -/
def reconnect (ok : Bool) (s : CMState) : CMState :=
  let s1 := connect ok s
  if ok then processMessageQueue { s1 with retryCount := 0 } else s1

/-- `disconnect` (lines 123-131): drop the port, clear the queue, reset
the retry counter. -/
def disconnect (s : CMState) : CMState :=
  { s with port := false, messageQueue := [], retryCount := 0 }

end ConnectionManager

namespace ConnectionManagerV2

/-- Fresh instance of the part_001 variant. -/
def initState : CMState :=
  { port := false, messageQueue := [], retryCount := 0, sent := [] }

/-- `sendMessage` (src/unnamed/part_001 lines 120-131), identical to the
src/lib variant. -/
def sendMessage (m : Message) (s : CMState) : CMState :=
  if s.port then { s with sent := s.sent ++ [m] }
  else { s with messageQueue := s.messageQueue ++ [m] }

/-- `processMessageQueue` (lines 105-118), identical to the src/lib
variant. -/
def processMessageQueue (s : CMState) : CMState :=
  if s.port then { s with sent := s.sent ++ s.messageQueue, messageQueue := [] }
  else s

/-- `disconnect` (lines 147-155): drop the port, clear the queue, reset
the retry counter. -/
def disconnect (s : CMState) : CMState :=
  { s with port := false, messageQueue := [], retryCount := 0 }

/-- `connect` (lines 14-64): this variant FIRST calls `this.disconnect()`
(line 21, clearing the pending queue), then attempts the transport. -/
def connect (ok : Bool) (s : CMState) : CMState :=
  let s0 := disconnect s
  if ok then { s0 with port := true } else s0

/-- `reconnect` (lines 97-103): connect, and on success reset the retry
counter and flush the (by then already cleared) queue. -/
def reconnect (ok : Bool) (s : CMState) : CMState :=
  let s1 := connect ok s
  if ok then processMessageQueue { s1 with retryCount := 0 } else s1

end ConnectionManagerV2

/-- C6 counterexample: in the part_001 ConnectionManager variant, a
message sent while disconnected is enqueued, but a successful
reconnection delivers nothing: `connect()` first calls `disconnect()`,
which clears the queue, so the queued message is discarded, never
delivered.  This refutes the claim for "every ConnectionChannel". -/
theorem C6_counterexample_queued_message_discarded :
    (ConnectionManagerV2.sendMessage ⟨"ZIP_DATA", "payload"⟩
        ConnectionManagerV2.initState).messageQueue
      = [⟨"ZIP_DATA", "payload"⟩] ∧
    (ConnectionManagerV2.reconnect true
        (ConnectionManagerV2.sendMessage ⟨"ZIP_DATA", "payload"⟩
          ConnectionManagerV2.initState)).sent = [] ∧
    (ConnectionManagerV2.reconnect true
        (ConnectionManagerV2.sendMessage ⟨"ZIP_DATA", "payload"⟩
          ConnectionManagerV2.initState)).messageQueue = [] := by
  refine ⟨rfl, rfl, rfl⟩

/-- C6 (amended): in the src/src/lib ConnectionManager, a message sent
while disconnected is appended to the FIFO queue, and upon a successful
internal reconnection every queued message is delivered in enqueue order
before any message sent after the reconnection.  (The part_001 variant
instead discards the queue in `connect()`.) -/
theorem C6_queue_flushed_in_order_on_reconnect
    (s : CMState) (m m2 : Message) (h : s.port = false) :
    (ConnectionManager.sendMessage m s).messageQueue
      = s.messageQueue ++ [m] ∧
    (ConnectionManager.sendMessage m2
        (ConnectionManager.reconnect true
          (ConnectionManager.sendMessage m s))).sent
      = s.sent ++ (s.messageQueue ++ [m]) ++ [m2] := by
  constructor
  · simp [ConnectionManager.sendMessage, h]
  · simp [ConnectionManager.sendMessage, ConnectionManager.reconnect,
      ConnectionManager.connect, ConnectionManager.processMessageQueue, h]

/-- Witness for C6: a concrete disconnected state with one message
already queued. -/
theorem C6_queue_flushed_in_order_on_reconnect_witness :
    (ConnectionManager.sendMessage ⟨"B", "b"⟩
        (ConnectionManager.reconnect true
          (ConnectionManager.sendMessage ⟨"A", "a"⟩
            { port := false, messageQueue := [⟨"Q", "q"⟩], retryCount := 2,
              sent := [] }))).sent
      = [] ++ ([⟨"Q", "q"⟩] ++ [⟨"A", "a"⟩]) ++ [⟨"B", "b"⟩] :=
  (C6_queue_flushed_in_order_on_reconnect
    { port := false, messageQueue := [⟨"Q", "q"⟩], retryCount := 2, sent := [] }
    ⟨"A", "a"⟩ ⟨"B", "b"⟩ rfl).2

/-- C9: `disconnect()` in both ConnectionManager variants always empties
the pending message queue, resets the retry counter to zero, and delivers
nothing (the `sent` log is unchanged), so messages queued while
disconnected are discarded by an explicit disconnect; and in the part_001
variant, `connect()` itself (succeeding or not) leaves the pending queue
empty and delivers none of the previously queued messages. -/
theorem C9_disconnect_clears_queue_and_retries :
    (∀ s : CMState,
      (ConnectionManager.disconnect s).messageQueue = [] ∧
      (ConnectionManager.disconnect s).retryCount = 0 ∧
      (ConnectionManager.disconnect s).sent = s.sent) ∧
    (∀ s : CMState,
      (ConnectionManagerV2.disconnect s).messageQueue = [] ∧
      (ConnectionManagerV2.disconnect s).retryCount = 0 ∧
      (ConnectionManagerV2.disconnect s).sent = s.sent) ∧
    (∀ (ok : Bool) (s : CMState),
      (ConnectionManagerV2.connect ok s).messageQueue = [] ∧
      (ConnectionManagerV2.connect ok s).sent = s.sent) := by
  refine ⟨fun s => ⟨rfl, rfl, rfl⟩, fun s => ⟨rfl, rfl, rfl⟩, fun ok s => ?_⟩
  cases ok <;> exact ⟨rfl, rfl⟩

/-!
## ZipProcessor (src/unnamed/part_000)

`processZipBlob` turns a binary blob into a path-to-text mapping or fails
as a whole.  The blob is modelled by its byte size plus the outcome of
`fflate.unzipSync` (error = corrupt archive, otherwise the entry list in
archive order); UTF-8 decoding of one entry's bytes is an explicit
parameter `decode` so that decode failures can be exercised.
-/

/-- Raw bytes of one archive entry. -/
abbrev Bytes := List Nat

/-- A Blob as seen by ZipProcessor: its size and what unzipSync does on
its contents (`Except.error` models a corrupt archive). -/
structure ZipBlob where
  size : Nat
  unzipResult : Except Unit (List (String × Bytes))

namespace ZipProcessor

/-- The per-entry decode loop (part_000 lines 31-40): decode each entry's
bytes as text; the first decode failure fails the whole call with a
message naming that file. -/
def decodeEntries (decode : Bytes → Except Unit String) :
    List (String × Bytes) → Except String (List (String × String))
  | [] => .ok []
  | (filename, content) :: rest =>
    match decode content with
    | .error _ =>
      .error ("Failed to decode file " ++ filename ++
        ". The file may be binary or corrupted.")
    | .ok text =>
      match decodeEntries decode rest with
      | .error e => .error e
      | .ok files => .ok ((filename, text) :: files)

/-- `ZipProcessor.processZipBlob` (part_000 lines 5-55): empty blob fails
with the empty-archive error; a corrupt archive fails; an archive with
zero entries fails; otherwise each entry is decoded, any decode failure
failing the whole call.  The return type is `Except`, so no failure path
returns a partial mapping. -/
def processZipBlob (decode : Bytes → Except Unit String) (blob : ZipBlob) :
    Except String (List (String × String)) :=
  if blob.size = 0 then .error "Empty ZIP file provided"
  else
    match blob.unzipResult with
    | .error _ => .error "Failed to extract ZIP contents. The file may be corrupted."
    | .ok unzipped =>
      if unzipped.length = 0 then .error "ZIP file contains no files"
      else decodeEntries decode unzipped

theorem decodeEntries_err_of_mem (decode : Bytes → Except Unit String) :
    ∀ entries : List (String × Bytes),
      (∃ e ∈ entries, ∃ u, decode e.2 = .error u) →
      ∃ p, p ∈ entries.map Prod.fst ∧
        decodeEntries decode entries =
          .error ("Failed to decode file " ++ p ++
            ". The file may be binary or corrupted.") := by
  intro entries
  induction entries with
  | nil => rintro ⟨e, he, _⟩; cases he
  | cons hd tl ih =>
    rintro ⟨e, he, u, hu⟩
    by_cases hhd : ∃ v, decode hd.2 = Except.error v
    · obtain ⟨v, hv⟩ := hhd
      refine ⟨hd.1, by simp, ?_⟩
      obtain ⟨n, c⟩ := hd
      simp only [decodeEntries, hv]
    · have hetl : e ∈ tl := by
        rcases List.mem_cons.mp he with h | h
        · exact absurd ⟨u, h ▸ hu⟩ hhd
        · exact h
      obtain ⟨p, hp, hres⟩ := ih ⟨e, hetl, u, hu⟩
      refine ⟨p, by simp [hp], ?_⟩
      obtain ⟨n, c⟩ := hd
      match htxt : decode c with
      | .error v => exact absurd ⟨v, htxt⟩ hhd
      | .ok text => simp only [decodeEntries, htxt, hres]

end ZipProcessor

/-- C5: archive extraction is all-or-nothing.  An empty blob fails with
the empty-archive error; an archive decompressing to zero entries fails
with the no-entries error; and if any entry's bytes fail UTF-8 decoding,
the whole call fails with an error naming a failing entry's path.  The
result type is `Except`: every failure path returns `.error`, never a
partial path-to-text mapping. -/
theorem C5_extraction_all_or_nothing
    (decode : Bytes → Except Unit String) (blob : ZipBlob)
    (entries : List (String × Bytes)) :
    (blob.size = 0 →
      ZipProcessor.processZipBlob decode blob = .error "Empty ZIP file provided") ∧
    (blob.size ≠ 0 → blob.unzipResult = .ok [] →
      ZipProcessor.processZipBlob decode blob = .error "ZIP file contains no files") ∧
    (blob.size ≠ 0 → blob.unzipResult = .ok entries →
      (∃ e ∈ entries, ∃ u, decode e.2 = .error u) →
      ∃ p, p ∈ entries.map Prod.fst ∧
        ZipProcessor.processZipBlob decode blob =
          .error ("Failed to decode file " ++ p ++
            ". The file may be binary or corrupted.")) := by
  refine ⟨fun h0 => by simp [ZipProcessor.processZipBlob, h0], ?_, ?_⟩
  · intro hne hz
    simp [ZipProcessor.processZipBlob, hne, hz]
  · intro hne hz hfail
    obtain ⟨p, hp, hres⟩ := ZipProcessor.decodeEntries_err_of_mem decode entries hfail
    refine ⟨p, hp, ?_⟩
    have hlen : entries.length ≠ 0 := by
      rintro hlen
      rcases hfail with ⟨e, he, _⟩
      rw [List.length_eq_zero] at hlen
      subst hlen
      cases he
    simp [ZipProcessor.processZipBlob, hne, hz, hlen, hres]

/-- Witness for C5: a two-entry archive whose second entry's bytes fail
decoding; the call fails naming a failing path. -/
theorem C5_extraction_all_or_nothing_witness :
    ∃ p, p ∈ [("a.txt", ([104] : Bytes)), ("img.png", [255])].map Prod.fst ∧
      ZipProcessor.processZipBlob
        (fun b => if 255 ∈ b then .error () else .ok "h")
        { size := 4, unzipResult := .ok [("a.txt", [104]), ("img.png", [255])] } =
        .error ("Failed to decode file " ++ p ++
          ". The file may be binary or corrupted.") :=
  (C5_extraction_all_or_nothing
    (fun b => if 255 ∈ b then .error () else .ok "h")
    { size := 4, unzipResult := .ok [("a.txt", [104]), ("img.png", [255])] }
    [("a.txt", [104]), ("img.png", [255])]).2.2
    (by decide)
    rfl
    ⟨("img.png", [255]), by simp, (), by simp⟩

/-!
## GitLab API requests (src/src/services/GitLabService.ts, src/unnamed/part_002)

An HTTP response is modelled by the fields the embedded code reads.  The
crucial code fact for the rate-limit claims: on a non-ok response,
`GitLabService.request` (lines 65-75) throws a fresh JS `Error` object
with `.status` attached -- it never throws the fetch `Response` itself --
so a thrown error is never an `instanceof Response`.
-/

/-- Observable fields of a fetch Response, as read by the embedded code. -/
structure HttpResponse where
  ok : Bool := true
  status : Nat := 200
  errorText : String := ""
  retryAfter : Option Nat := none
  commitId : Option String := none
  remainingRequests : Nat := 100
  resetTime : Nat := 0
  coreRemaining : Nat := 100
  deriving Repr, DecidableEq

/-- A value thrown by the request layer: `isResponse` records whether the
thrown value is a fetch `Response` instance (it never is: `request`
throws `new Error(...)`), with the response's status and message
attached. -/
structure ApiError where
  isResponse : Bool
  status : Nat
  message : String
  deriving Repr, DecidableEq

namespace GitLabService

/-- `GitLabService.request` (GitLabService.ts lines 45-78): an ok
response yields its payload; a non-ok response throws an Error (not the
Response) carrying the status and a formatted message. -/
def request (resp : HttpResponse) : Except ApiError HttpResponse :=
  if resp.ok then .ok resp
  else
    .error
      { isResponse := false
        status := resp.status
        message := "GitLab API Error (" ++ toString resp.status ++ "): " ++ resp.errorText }

end GitLabService

/-- JS `err.message || 'Unknown error'`. -/
def apiErrMsg (e : ApiError) : String :=
  if e.message = "" then "Unknown error" else e.message

/-!
## The ignore engine (external npm dependency `ignore`)

`ZipHandler.processFilesWithGitignore` compiles gitignore lines through
the npm `ignore` package.  The package is modelled here for the pattern
forms the repository uses: blank/comment lines skipped, `!` negation with
last-match-wins, a trailing `/` marking a directory-only pattern, a
pattern containing an inner slash anchored at the root, a slash-free
pattern matched against every path component, and `*` / `?` globbing
inside one component.

String operations are carried out on `List Char` with structural
recursion (so that concrete runs reduce inside the kernel); `splitOnChar`
is JS `split` for a one-character separator, `trimChars` is JS `trim`,
`beginsWith` is JS `startsWith`.
-/

/-- JS `s.split(sep)` for a one-character separator, over char lists. -/
def splitOnChar (c : Char) : List Char → List (List Char)
  | [] => [[]]
  | x :: xs =>
    let r := splitOnChar c xs
    if x == c then [] :: r
    else
      match r with
      | [] => [[x]]
      | h :: t => (x :: h) :: t

/-- JS `s.trim()`: strip leading and trailing whitespace. -/
def trimChars (s : List Char) : List Char :=
  ((s.dropWhile Char.isWhitespace).reverse.dropWhile Char.isWhitespace).reverse

/-- JS `s.startsWith(p)`: whether `l` begins with `p`. -/
def beginsWith : List Char → List Char → Bool
  | [], _ => true
  | _ :: _, [] => false
  | p :: ps, x :: xs => p == x && beginsWith ps xs

namespace Ignore

/-- Glob match of one pattern component against one path component:
`*` matches any run of characters, `?` any single character. -/
def globMatch : List Char → List Char → Bool
  | [], s => s.isEmpty
  | '*' :: ps, s => (List.range (s.length + 1)).any (fun k => globMatch ps (s.drop k))
  | '?' :: ps, s =>
    match s with
    | [] => false
    | _ :: ss => globMatch ps ss
  | p :: ps, s =>
    match s with
    | [] => false
    | c :: ss => (p == c) && globMatch ps ss

/-- Each pattern segment matches the corresponding leading path segment. -/
def segsLeadMatch : List (List Char) → List (List Char) → Bool
  | [], _ => true
  | _ :: _, [] => false
  | g :: gs, s :: ss => globMatch g s && segsLeadMatch gs ss

/-- A slash-free pattern matches any path component; a directory-only
pattern may not match the final component (the final component of a
tested file path is a file, not a directory). -/
def anyComponent (g : List Char) (dirOnly : Bool) : List (List Char) → Bool
  | [] => false
  | [s] => !dirOnly && globMatch g s
  | s :: rest => globMatch g s || anyComponent g dirOnly rest

/-- One compiled gitignore pattern. -/
structure CompiledPattern where
  neg : Bool
  segs : List (List Char)
  dirOnly : Bool
  anchored : Bool
  deriving Repr, DecidableEq

/-- Compile one gitignore line; blank lines and `#` comments yield no
pattern. -/
def parsePattern (line : List Char) : Option CompiledPattern :=
  if line.isEmpty then none
  else if beginsWith ['#'] line then none
  else
    let (neg, b1) := if beginsWith ['!'] line then (true, line.drop 1) else (false, line)
    let (dirOnly, b2) :=
      if b1.getLast? == some '/' then (true, b1.dropLast) else (false, b1)
    let (anch, b3) := if beginsWith ['/'] b2 then (true, b2.drop 1) else (false, b2)
    let segs := splitOnChar '/' b3
    some { neg := neg, segs := segs, dirOnly := dirOnly,
           anchored := anch || segs.length > 1 }

/-- Whether one compiled pattern matches a path already split into
components. -/
def patMatches (p : CompiledPattern) (ss : List (List Char)) : Bool :=
  if p.anchored then
    segsLeadMatch p.segs ss && (!p.dirOnly || p.segs.length < ss.length)
  else
    match p.segs with
    | [g] => anyComponent g p.dirOnly ss
    | _ => false

/-- `ignore().add(lines).ignores(path)`: patterns apply in order,
last match wins, negated patterns un-ignore. -/
def ignores (lines : List String) (path : String) : Bool :=
  let ss := splitOnChar '/' path.toList
  lines.foldl (fun acc line =>
    match parsePattern line.toList with
    | none => acc
    | some cp => if patMatches cp ss then !cp.neg else acc) false

end Ignore

/-!
## ZipHandler.processFilesWithGitignore (GitLabService.ts lines 462-520)
-/

/-- JS truthiness of a possibly-missing string (`a || b` falls through
both `undefined` and the empty string). -/
def jsTruthy : Option String → Option String
  | some s => if s = "" then none else some s
  | none => none

namespace ZipHandler

/-- The built-in default ignore patterns (lines 474-500), applied when no
gitignore text is found. -/
def defaultIgnorePatterns : List String :=
  ["node_modules/", "dist/", "build/", ".DS_Store", "coverage/", ".env",
   ".env.local", ".env.*.local", "*.log", "npm-debug.log*", "yarn-debug.log*",
   "yarn-error.log*", ".idea/", ".vscode/", "*.suo", "*.ntvs*", "*.njsproj",
   "*.sln", "*.sw?", ".next/", "out/", ".nuxt/", ".cache/", ".temp/", "tmp/"]

/-- Line 469: `files.get('.gitignore') || files.get('project/.gitignore')`
(JS `||`, so an empty-string content falls through). -/
def gitignoreContent (files : List (String × String)) : Option String :=
  match jsTruthy (List.lookup ".gitignore" files) with
  | some g => some g
  | none => jsTruthy (List.lookup "project/.gitignore" files)

/-- Lines 470-501: the pattern set handed to `ignore()`: the chosen
gitignore content split on newlines, else the defaults. -/
def activePatterns (files : List (String × String)) : List String :=
  match gitignoreContent files with
  | some g => (splitOnChar '\n' g.toList).map String.mk
  | none => defaultIgnorePatterns

/-- Line 509: strip the synthetic `project/` root segment. -/
def normalizedPath (path : String) : String :=
  if beginsWith "project/".toList path.toList then String.mk (path.toList.drop 8)
  else path

/-- JS `Map.prototype.set`: replace an existing key in place, else append. -/
def mapSet : List (String × String) → String → String → List (String × String)
  | [], k, v => [(k, v)]
  | (k2, v2) :: rest, k, v =>
    if k2 = k then (k, v) :: rest else (k2, v2) :: mapSet rest k v

/-- Lines 503-517: the per-entry loop.  Directory markers (trailing `/`)
and entries whose trimmed content is empty are skipped; the `project/`
prefix is stripped; ignored paths are dropped; survivors are set into the
output map. -/
def processFilesLoop (pats : List String) :
    List (String × String) → List (String × String) → List (String × String)
  | [], acc => acc
  | (path, content) :: rest, acc =>
    if path.toList.getLast? == some '/' || (trimChars content.toList).isEmpty then
      processFilesLoop pats rest acc
    else
      let np := normalizedPath path
      if Ignore.ignores pats np then processFilesLoop pats rest acc
      else processFilesLoop pats rest (mapSet acc np content)

/-- `ZipHandler.processFilesWithGitignore` (lines 462-520). -/
def processFilesWithGitignore (files : List (String × String)) :
    List (String × String) :=
  processFilesLoop (activePatterns files) files []

theorem lookup_mapSet_ne (t : String) :
    ∀ (m : List (String × String)) (k v : String), t ≠ k →
      List.lookup t (mapSet m k v) = List.lookup t m := by
  intro m
  induction m with
  | nil =>
    intro k v h
    simp [mapSet, List.lookup, beq_eq_false_iff_ne.mpr h]
  | cons kv rest ih =>
    intro k v h
    obtain ⟨k2, v2⟩ := kv
    by_cases hk : k2 = k
    · subst hk
      simp [mapSet, List.lookup, beq_eq_false_iff_ne.mpr h]
    · simp only [mapSet, if_neg hk]
      by_cases ht : t = k2
      · subst ht
        simp [List.lookup]
      · simp [List.lookup, beq_eq_false_iff_ne.mpr ht, ih k v h]

theorem lookup_processFilesLoop_none (pats : List String) (t : String)
    (ht : Ignore.ignores pats t = true) :
    ∀ (files acc : List (String × String)), List.lookup t acc = none →
      List.lookup t (processFilesLoop pats files acc) = none := by
  intro files
  induction files with
  | nil => intro acc hacc; simpa only [processFilesLoop] using hacc
  | cons pc rest ih =>
    intro acc hacc
    obtain ⟨path, content⟩ := pc
    simp only [processFilesLoop]
    by_cases hskip :
        (path.toList.getLast? == some '/' || (trimChars content.toList).isEmpty) = true
    · rw [if_pos hskip]
      exact ih acc hacc
    · rw [if_neg hskip]
      by_cases hig : Ignore.ignores pats (normalizedPath path) = true
      · rw [if_pos hig]
        exact ih acc hacc
      · rw [if_neg hig]
        have hne : t ≠ normalizedPath path := by
          intro he
          exact hig (he ▸ ht)
        exact ih (mapSet acc (normalizedPath path) content)
          ((lookup_mapSet_ne t acc (normalizedPath path) content hne).trans hacc)

end ZipHandler

/-- C7 counterexample: a `.gitignore` entry IS present (at the
conventional root path, with empty content), yet its lines are not the
patterns applied -- the built-in defaults are (JS `||` treats the empty
string as absent), and `node_modules/x.js` is dropped although the
present gitignore's (empty) pattern list ignores nothing. -/
theorem C7_counterexample_empty_gitignore_uses_defaults :
    List.lookup ".gitignore"
        [(".gitignore", ""), ("node_modules/x.js", "const x = 1")] = some "" ∧
    ZipHandler.activePatterns
        [(".gitignore", ""), ("node_modules/x.js", "const x = 1")]
      = ZipHandler.defaultIgnorePatterns ∧
    List.lookup "node_modules/x.js"
        (ZipHandler.processFilesWithGitignore
          [(".gitignore", ""), ("node_modules/x.js", "const x = 1")]) = none := by
  refine ⟨by decide, by decide, by decide⟩

/-- C7 (amended): the ignore filter uses the gitignore text found at the
conventional root path `.gitignore`, or (when that is absent or empty) at
`project/.gitignore`, provided the content is non-empty (JS truthiness),
compiling its newline-split lines as the pattern set; otherwise the
built-in default pattern set applies, under which an entry named
`node_modules/x.js` never survives the filter. -/
theorem C7_gitignore_selection_and_default_filter
    (files : List (String × String)) (g : String) :
    (g ≠ "" → List.lookup ".gitignore" files = some g →
      ZipHandler.activePatterns files = (splitOnChar '\n' g.toList).map String.mk) ∧
    (jsTruthy (List.lookup ".gitignore" files) = none → g ≠ "" →
      List.lookup "project/.gitignore" files = some g →
      ZipHandler.activePatterns files = (splitOnChar '\n' g.toList).map String.mk) ∧
    (ZipHandler.gitignoreContent files = none →
      List.lookup "node_modules/x.js"
        (ZipHandler.processFilesWithGitignore files) = none) := by
  refine ⟨?_, ?_, ?_⟩
  · intro hg hfind
    simp only [ZipHandler.activePatterns, ZipHandler.gitignoreContent, hfind]
    simp [jsTruthy, hg]
  · intro hroot hg hfind
    simp only [ZipHandler.activePatterns, ZipHandler.gitignoreContent, hroot, hfind]
    simp [jsTruthy, hg]
  · intro hnone
    have hpats : ZipHandler.activePatterns files = ZipHandler.defaultIgnorePatterns := by
      simp [ZipHandler.activePatterns, hnone]
    rw [ZipHandler.processFilesWithGitignore, hpats]
    exact ZipHandler.lookup_processFilesLoop_none ZipHandler.defaultIgnorePatterns
      "node_modules/x.js" (by decide) files [] rfl

/-- Witness for C7: with no gitignore entry at all, a concrete
`node_modules/x.js` entry is dropped by the default pattern set. -/
theorem C7_gitignore_selection_and_default_filter_witness :
    List.lookup "node_modules/x.js"
      (ZipHandler.processFilesWithGitignore
        [("node_modules/x.js", "const a = 1"), ("src/app.js", "let b = 2")]) = none :=
  (C7_gitignore_selection_and_default_filter
    [("node_modules/x.js", "const a = 1"), ("src/app.js", "let b = 2")] "x").2.2
    (by decide)

/-!
## The sync pipeline: ZipHandler (GitLabService.ts lines 308-665)

The remote API is modelled by a response tape `respond : Nat → HttpResponse`
giving the n-th issued request's HTTP response; a run-state `RunSt` logs
every issued request in order, the emitted progress events, and the number
of rate-limit waits performed (the call sites of
`rateLimitHandler.handleRateLimit`, whose class body is not under src/ --
the counter records every time that branch is entered).  The
`gitlabService` field is constructor-injected and non-null in the
embedded scenarios, so the `!this.gitlabService` guard (lines 393-397) is
not modelled.  The base64/`toBase64` encoding of contents and the
`beforeRequest` pacing delays are invisible to the claims and are not
given observations.
-/

/-- A request issued against the GitLab API, identified by endpoint. -/
inductive Req where
  | getProject
  | listBranches
  | getBranch (name : String)
  | createBranch (branch : String) (ref : String)
  | getRateLimit
  | createFile (path : String)
  deriving Repr, DecidableEq

/-- One progress event handed to `sendStatus` by `updateStatus`. -/
structure Ev where
  status : String
  progress : Nat
  message : String
  deriving Repr, DecidableEq

/-- Instrumented run state: request counter, ordered request log, ordered
event log, count of entries into the rate-limit-retry branch. -/
structure RunSt where
  n : Nat := 0
  log : List Req := []
  events : List Ev := []
  rateLimitWaits : Nat := 0
  deriving Repr, DecidableEq

/-- The pipeline's environment: the response tape, the
`chrome.storage.sync` fields read at lines 407-411, and the current time
(seconds) read at line 583. -/
structure PipelineEnv where
  respond : Nat → HttpResponse
  repoOwner : Option String := none
  repoName : Option String := none
  branch : Option String := none
  now : Nat := 0

namespace ZipHandler

/-- Issue one request: consume the next tape response, log the request. -/
def doRequest (env : PipelineEnv) (r : Req) (st : RunSt) :
    Except ApiError HttpResponse × RunSt :=
  (GitLabService.request (env.respond st.n),
   { st with n := st.n + 1, log := st.log ++ [r] })

/-- `updateStatus` (lines 314-321): emit one progress event. -/
def updateStatus (status : String) (progress : Nat) (message : String)
    (st : RunSt) : RunSt :=
  { st with events := st.events ++ [⟨status, progress, message⟩] }

/-- `GitLabService.validateRepository` (GitLabService.ts lines 215-247):
GET the project, then GET its branch list; 404 maps to not-found, a 403
on the branch list to insufficient permissions. -/
def validateRepository (env : PipelineEnv) (st : RunSt) :
    RunSt × Except String Unit :=
  match doRequest env .getProject st with
  | (.error e, st) =>
    if e.status == 404 then
      (st, .error "Repository not found. Please verify the repository URL and your access permissions.")
    else
      (st, .error ("GitLab API Error: " ++ apiErrMsg e))
  | (.ok _, st) =>
    match doRequest env .listBranches st with
    | (.ok _, st) => (st, .ok ())
    | (.error e, st) =>
      if e.status == 403 then
        (st, .error "Insufficient permissions. Please make sure your GitLab token has write access to this repository.")
      else if e.status == 404 then
        (st, .error "Repository not found. Please verify the repository URL and your access permissions.")
      else
        (st, .error ("GitLab API Error: " ++ apiErrMsg e))

/-- `ZipHandler.ensureBranchExists` (lines 323-376): GET the target
branch; on 404, GET the default branch `main`, require its head commit
id, and POST a branch create from it; a 403 during creation maps to the
insufficient-permissions message. -/
def ensureBranchExists (env : PipelineEnv) (targetBranch : String)
    (st : RunSt) : RunSt × Except String Unit :=
  match doRequest env (.getBranch targetBranch) st with
  | (.ok _, st) => (st, .ok ())
  | (.error e, st) =>
    if e.status == 404 then
      let st := updateStatus "uploading" 18
        ("Creating branch " ++ targetBranch ++ "...") st
      match doRequest env (.getBranch "main") st with
      | (.error e2, st) => (st, .error ("Failed to create branch: " ++ apiErrMsg e2))
      | (.ok resp, st) =>
        match resp.commitId with
        | none => (st, .error "Failed to create branch: Invalid default branch response")
        | some sha =>
          match doRequest env (.createBranch targetBranch sha) st with
          | (.ok _, st) => (st, .ok ())
          | (.error e3, st) =>
            if e3.status == 403 then
              (st, .error "Insufficient permissions to create branch. Please check your GitLab token permissions.")
            else
              (st, .error ("Failed to create branch: " ++ apiErrMsg e3))
    else
      (st, .error ("Failed to check branch existence: " ++ apiErrMsg e))

/-- The `while (!success)` body of `createBlobs` (lines 610-659) for one
file, with explicit fuel for the unbounded loop.  The retry branch (line
651) fires only when the caught value is an `instanceof Response` with
status 403; entering it performs `rateLimitHandler.handleRateLimit`
(counted in `rateLimitWaits`) and retries the same file.  Any other error
is rethrown. -/
def uploadOneFile (env : PipelineEnv) (path : String) :
    Nat → RunSt → RunSt × Except String Unit
  | 0, st => (st, .error "retry loop exhausted")
  | fuel + 1, st =>
    match doRequest env (.createFile path) st with
    | (.ok _, st) => (st, .ok ())
    | (.error e, st) =>
      if e.isResponse && e.status == 403 then
        uploadOneFile env path fuel
          { st with rateLimitWaits := st.rateLimitWaits + 1 }
      else (st, .error (apiErrMsg e))

/-- The per-file loop of `createBlobs` (lines 607-661): files are
serialized through `new Queue(1)`, each through the retry body; on
success the completed counter increments and a progress event
`20 + floor(completed/total*60)` is emitted. -/
def createBlobsLoop (env : PipelineEnv) (fuel totalFiles : Nat) :
    List (String × String) → Nat → RunSt → RunSt × Except String Nat
  | [], completed, st => (st, .ok completed)
  | (path, _) :: rest, completed, st =>
    match uploadOneFile env path fuel st with
    | (st, .error msg) => (st, .error msg)
    | (st, .ok _) =>
      let completed := completed + 1
      let st := updateStatus "uploading" (20 + completed * 60 / totalFiles)
        ("Uploading files (" ++ toString completed ++ "/" ++ toString totalFiles
          ++ ")...") st
      createBlobsLoop env fuel totalFiles rest completed st

/-- `ZipHandler.createBlobs` (lines 566-664): check the rate-limit
budget (GET /rate_limit; below 10 remaining, either wait out a reset no
more than 120s away and re-check, or abort), then upload each file. -/
def createBlobs (env : PipelineEnv) (files : List (String × String))
    (fuel : Nat) (st : RunSt) : RunSt × Except String Nat :=
  match doRequest env .getRateLimit st with
  | (.error e, st) => (st, .error (apiErrMsg e))
  | (.ok rl, st) =>
    if rl.remainingRequests < 10 then
      let waitTime : Int := (rl.resetTime : Int) - (env.now : Int)
      if waitTime ≤ 120 then
        match doRequest env .getRateLimit st with
        | (.error e, st) => (st, .error (apiErrMsg e))
        | (.ok rl2, st) =>
          if rl2.coreRemaining < 10 then
            (st, .error "Insufficient API rate limit remaining even after waiting for reset")
          else createBlobsLoop env fuel files.length files 0 st
      else
        (st, .error ("Insufficient API rate limit remaining. Reset in "
          ++ toString ((waitTime + 59) / 60) ++ " minutes"))
    else createBlobsLoop env fuel files.length files 0 st

/-- The second per-file loop of `uploadToGitLab` (lines 543-557,
"Create commits for each file"): one more create-file POST per file,
with no retry handling; an error propagates. -/
def commitLoop (env : PipelineEnv) :
    List (String × String) → RunSt → RunSt × Except String Unit
  | [], st => (st, .ok ())
  | (path, _) :: rest, st =>
    match doRequest env (.createFile path) st with
    | (.error e, st) => (st, .error (apiErrMsg e))
    | (.ok _, st) => commitLoop env rest st

/-- `ZipHandler.uploadToGitLab` (lines 522-560): GET the target branch
(reading `branch.commit.id`; a payload without it raises a TypeError),
run `createBlobs` over all files, then the per-file commit loop, then the
90% event. -/
def uploadToGitLab (env : PipelineEnv) (processedFiles : List (String × String))
    (fuel : Nat) (targetBranch : String) (st : RunSt) :
    RunSt × Except String Unit :=
  match doRequest env (.getBranch targetBranch) st with
  | (.error e, st) => (st, .error (apiErrMsg e))
  | (.ok resp, st) =>
    match resp.commitId with
    | none => (st, .error "Cannot read properties of undefined (reading 'id')")
    | some _ =>
      let st := updateStatus "uploading" 30 "Creating file blobs..." st
      match createBlobs env processedFiles fuel st with
      | (st, .error msg) => (st, .error msg)
      | (st, .ok _) =>
        let st := updateStatus "uploading" 70 "Creating tree..." st
        match commitLoop env processedFiles st with
        | (st, .error msg) => (st, .error msg)
        | (st, .ok _) =>
          (updateStatus "uploading" 90 "Files uploaded successfully" st, .ok ())

/-- `ZipHandler.processZipFile` (lines 378-460): size guard before
anything else; then extract, read settings, validate, ensure branch,
filter, upload, and emit success; the catch (lines 451-458) emits one
more error event prefixed "Failed to upload files: " and rethrows.  The
post-success 5s timer to `idle` (lines 448-450) is outside the call's
own event sequence and not modelled. -/
def processZipFile (env : PipelineEnv) (blobSize : Nat)
    (zipResult : Except String (List (String × String))) (fuel : Nat) :
    RunSt × Except String Unit :=
  let st : RunSt := {}
  if blobSize > 50 * 1024 * 1024 then
    let message := "File too large. Maximum size is 50MB. Please reduce the number of files or compress them further."
    (updateStatus "error" 0 message st, .error message)
  else
    let st := updateStatus "uploading" 0 "Processing ZIP file..." st
    match zipResult with
    | .error zmsg =>
      (updateStatus "error" 0 ("Failed to upload files: " ++ zmsg) st, .error zmsg)
    | .ok files =>
      let st := updateStatus "uploading" 10 "Preparing files..." st
      match jsTruthy env.repoOwner, jsTruthy env.repoName with
      | none, _ =>
        let message := "Repository owner not configured. Please check your GitLab repository URL in settings."
        let st := updateStatus "error" 0 message st
        (updateStatus "error" 0 ("Failed to upload files: " ++ message) st,
         .error message)
      | some _, none =>
        let message := "Repository name not configured. Please check your GitLab repository URL in settings."
        let st := updateStatus "error" 0 message st
        (updateStatus "error" 0 ("Failed to upload files: " ++ message) st,
         .error message)
      | some _, some _ =>
        let targetBranch := (jsTruthy env.branch).getD "main"
        let st := updateStatus "uploading" 15 "Validating repository access..." st
        match validateRepository env st with
        | (st, .error _) =>
          let message := "Repository not found or access denied. Please verify your GitLab token has access to this repository."
          let st := updateStatus "error" 0 message st
          (updateStatus "error" 0 ("Failed to upload files: " ++ message) st,
           .error message)
        | (st, .ok _) =>
          match ensureBranchExists env targetBranch st with
          | (st, .error msg) =>
            (updateStatus "error" 0 ("Failed to upload files: " ++ msg) st,
             .error msg)
          | (st, .ok _) =>
            let processedFiles := processFilesWithGitignore files
            let st := updateStatus "uploading" 20 "Getting repository information..." st
            match uploadToGitLab env processedFiles fuel targetBranch st with
            | (st, .error msg) =>
              (updateStatus "error" 0 ("Failed to upload files: " ++ msg) st,
               .error msg)
            | (st, .ok _) =>
              (updateStatus "success" 100
                ("Successfully uploaded " ++ toString processedFiles.length
                  ++ " files to GitLab") st,
               .ok ())

end ZipHandler

/-- The spec's end-to-end 3-file scenario: an archive extracting to
`a.txt`, `b.txt`, and a `.gitignore` containing `b.txt`, processed
against a valid target with every remote call succeeding. -/
def threeFileScenarioRun : RunSt × Except String Unit :=
  ZipHandler.processZipFile
    { respond := fun _ => { commitId := some "c0" },
      repoOwner := some "owner", repoName := some "repo",
      branch := some "main" } 3000
    (.ok [("a.txt", "hello a"), ("b.txt", "hello b"), (".gitignore", "b.txt")]) 4

/-- C1: evaluation of the pipeline at the spec's 3-file scenario.  The
run issues TWO file-create requests for `a.txt` (one in `createBlobs`, a
second in `uploadToGitLab`'s per-file commit loop), and also two for the
surviving `.gitignore` entry, before reporting success at 100% --
refuting "exactly one remote file-create call, for a.txt". -/
theorem C1_file_create_issued_twice_per_entry :
    threeFileScenarioRun.1.log.count (Req.createFile "a.txt") = 2 ∧
    threeFileScenarioRun.1.log.count (Req.createFile "b.txt") = 0 ∧
    threeFileScenarioRun.1.log.count (Req.createFile ".gitignore") = 2 ∧
    threeFileScenarioRun.2.isOk = true ∧
    threeFileScenarioRun.1.events.getLast? =
      some ⟨"success", 100, "Successfully uploaded 2 files to GitLab"⟩ := by
  decide

/-- C4: any blob above the 50 MiB ceiling is rejected by the size guard
before anything else happens: one error event is emitted, the error is
thrown, and the request log is empty -- zero remote calls. -/
theorem C4_size_guard_rejects_with_no_remote_calls
    (env : PipelineEnv) (blobSize : Nat)
    (zipResult : Except String (List (String × String))) (fuel : Nat)
    (h : blobSize > 50 * 1024 * 1024) :
    ZipHandler.processZipFile env blobSize zipResult fuel =
      ({ n := 0, log := [],
         events := [⟨"error", 0, "File too large. Maximum size is 50MB. Please reduce the number of files or compress them further."⟩],
         rateLimitWaits := 0 },
       .error "File too large. Maximum size is 50MB. Please reduce the number of files or compress them further.") := by
  simp [ZipHandler.processZipFile, ZipHandler.updateStatus, h]

/-- Witness for C4: one byte above the ceiling. -/
theorem C4_size_guard_rejects_with_no_remote_calls_witness :
    ZipHandler.processZipFile { respond := fun _ => ({} : HttpResponse) }
      52428801 (.ok []) 1 =
      ({ n := 0, log := [],
         events := [⟨"error", 0, "File too large. Maximum size is 50MB. Please reduce the number of files or compress them further."⟩],
         rateLimitWaits := 0 },
       .error "File too large. Maximum size is 50MB. Please reduce the number of files or compress them further.") :=
  C4_size_guard_rejects_with_no_remote_calls
    { respond := fun _ => ({} : HttpResponse) } 52428801 (.ok []) 1 (by decide)

/-- C3: the per-file retry is dead code.  First conjunct: the fuel bound
on the `while (!success)` loop is irrelevant -- no execution ever
retries, because every error thrown by `request` is a JS `Error` (never
`instanceof Response`), while the catch at line 651 requires a `Response`
with status 403.  Second conjunct: when the next response is any failure
-- in particular HTTP 429 with a Retry-After -- the file's upload makes
exactly one create attempt, performs zero rate-limit waits, and aborts
with the thrown error instead of waiting and re-issuing the request. -/
theorem C3_throttled_upload_aborts_without_retry
    (env : PipelineEnv) (path : String) (st : RunSt) (fuel : Nat)
    (hfail : (env.respond st.n).ok = false) :
    (∀ (env2 : PipelineEnv) (p2 : String) (st2 : RunSt) (f : Nat),
        ZipHandler.uploadOneFile env2 p2 (f + 1) st2
          = ZipHandler.uploadOneFile env2 p2 1 st2) ∧
    ZipHandler.uploadOneFile env path (fuel + 1) st =
      ({ st with n := st.n + 1, log := st.log ++ [Req.createFile path] },
       .error (apiErrMsg
         { isResponse := false, status := (env.respond st.n).status,
           message := "GitLab API Error (" ++ toString (env.respond st.n).status
             ++ "): " ++ (env.respond st.n).errorText })) := by
  constructor
  · intro env2 p2 st2 f
    cases hok : (env2.respond st2.n).ok with
    | true =>
      simp [ZipHandler.uploadOneFile, ZipHandler.doRequest, GitLabService.request, hok]
    | false =>
      simp [ZipHandler.uploadOneFile, ZipHandler.doRequest, GitLabService.request, hok]
  · simp [ZipHandler.uploadOneFile, ZipHandler.doRequest, GitLabService.request, hfail]

/-- Witness for C3: a 429 response with Retry-After 2; one attempt, no
wait, abort. -/
theorem C3_throttled_upload_aborts_without_retry_witness :
    ZipHandler.uploadOneFile
      { respond := fun _ =>
          { ok := false, status := 429, errorText := "rate limited",
            retryAfter := some 2 } } "a.txt" 4 {} =
      ({ n := 1, log := [Req.createFile "a.txt"], events := [],
         rateLimitWaits := 0 },
       .error "GitLab API Error (429): rate limited") := by
  have h := (C3_throttled_upload_aborts_without_retry
    { respond := fun _ =>
        { ok := false, status := 429, errorText := "rate limited",
          retryAfter := some 2 } } "a.txt" {} 3 rfl).2
  simpa [apiErrMsg] using h

/-- C8: `ensureBranchExists` on a 404 branch lookup reads the default
branch `main`'s head commit and creates the target branch from that
commit id; and a 403 during the branch-create call yields the
insufficient-permissions error. -/
theorem C8_missing_branch_created_from_default_head
    (env : PipelineEnv) (tb sha : String) (st : RunSt)
    (h0 : (env.respond st.n).ok = false)
    (h0s : (env.respond st.n).status = 404)
    (h1 : (env.respond (st.n + 1)).ok = true)
    (h1c : (env.respond (st.n + 1)).commitId = some sha) :
    ((env.respond (st.n + 2)).ok = true →
      ZipHandler.ensureBranchExists env tb st =
        ({ st with
            n := st.n + 3,
            log := st.log ++ [Req.getBranch tb, Req.getBranch "main",
              Req.createBranch tb sha],
            events := st.events
              ++ [⟨"uploading", 18, "Creating branch " ++ tb ++ "..."⟩] },
         .ok ())) ∧
    ((env.respond (st.n + 2)).ok = false →
      (env.respond (st.n + 2)).status = 403 →
      (ZipHandler.ensureBranchExists env tb st).2 =
        .error "Insufficient permissions to create branch. Please check your GitLab token permissions.") := by
  constructor
  · intro h2
    simp [ZipHandler.ensureBranchExists, ZipHandler.doRequest,
      GitLabService.request, ZipHandler.updateStatus, h0, h0s, h1, h1c, h2]
  · intro h2 h2s
    simp [ZipHandler.ensureBranchExists, ZipHandler.doRequest,
      GitLabService.request, ZipHandler.updateStatus, h0, h0s, h1, h1c, h2, h2s]

/-- Witness for C8: a concrete tape (404 lookup, default branch head
`abc`, create succeeding). -/
theorem C8_missing_branch_created_from_default_head_witness :
    ZipHandler.ensureBranchExists
      { respond := fun n =>
          if n = 0 then { ok := false, status := 404 }
          else if n = 1 then { commitId := some "abc" }
          else {} } "feature" {} =
      ({ n := 3,
         log := [Req.getBranch "feature", Req.getBranch "main",
           Req.createBranch "feature" "abc"],
         events := [⟨"uploading", 18, "Creating branch feature..."⟩],
         rateLimitWaits := 0 },
       .ok ()) := by
  have h := (C8_missing_branch_created_from_default_head
    { respond := fun n =>
        if n = 0 then { ok := false, status := 404 }
        else if n = 1 then { commitId := some "abc" }
        else {} } "feature" "abc" {} rfl rfl rfl rfl).1 rfl
  simpa using h

/-!
## BackgroundService (src/src/background/BackgroundService.ts)

The coordinator's message handling is modelled by the guards it actually
evaluates.  `handleZipData` (lines 219-305) checks, in order: the tab's
port, the GitLab service, the ZIP handler, and the project id -- and then
invokes `zipHandler.processZipFile` with `this.pendingCommitMessage`.  No
field or check records whether another sync is in flight; the model
carries a `syncInProgress` observation flag to state that the decision is
independent of it.  The base64-to-Blob decode (lines 244-250) is not a
guard (its errors flow into the same catch as processing errors).
-/

/-- Fields of the BackgroundService instance that the ZIP_DATA and
SET_COMMIT_MESSAGE paths read or write, plus a `syncInProgress`
observation (whether some earlier `handleZipData` is still awaited --
tracked by no field of the class itself). -/
structure BGState where
  hasGitlabService : Bool
  hasZipHandler : Bool
  projectId : Option String
  pendingCommitMessage : String
  syncInProgress : Bool
  portPresent : Bool
  deriving Repr, DecidableEq

namespace BackgroundService

/-- The constructor's initial pending commit message (line 22), also
restored after a successful upload (line 260). -/
def defaultCommitMessage : String := "Commit from Bolt to GitLab"

/-- What `handleZipData` decides to do with an incoming ZIP_DATA
message. -/
inductive ZipDataDecision where
  | ignoredNoPort
  | errorStatus (message : String)
  | processed (commitMessage : String)
  deriving Repr, DecidableEq

/-- The guard sequence of `handleZipData` (lines 219-254): silently
return without a port; error statuses for a missing GitLab service, ZIP
handler, or project id; otherwise process the archive with the pending
commit message. -/
def handleZipDataDecision (s : BGState) : ZipDataDecision :=
  if !s.portPresent then .ignoredNoPort
  else if !s.hasGitlabService then
    .errorStatus "GitLab service not initialized. Please check your GitLab settings and try again."
  else if !s.hasZipHandler then
    .errorStatus "ZIP handler not initialized. Please try reloading the extension."
  else
    match s.projectId with
    | none =>
      .errorStatus "Project ID not found. Please make sure you are on a valid Bolt project page."
    | some _ => .processed s.pendingCommitMessage

/-- The state update around the awaited `processZipFile` (lines
253-265): only after a successful upload is `pendingCommitMessage` reset
to the default; any failure (including the 5-minute `withTimeout`
rejection) reaches the catch blocks, which send an error status but do
not touch the field. -/
def handleZipDataAfter (s : BGState) (result : Except String Unit) : BGState :=
  match result with
  | .ok _ => { s with pendingCommitMessage := defaultCommitMessage }
  | .error _ => s

/-- SET_COMMIT_MESSAGE handling (lines 182-187): store the incoming
message when `message.data && message.data.message` is truthy (a missing
or empty message leaves the field unchanged). -/
def setCommitMessage (s : BGState) (m : Option String) : BGState :=
  match m with
  | some msg => if msg = "" then s else { s with pendingCommitMessage := msg }
  | none => s

end BackgroundService

/-- C2 counterexample: with a sync already in progress
(`syncInProgress := true`) and all prerequisites present, an incoming
ZIP_DATA message is NOT rejected with a busy error: `handleZipData`
consults no in-flight flag and proceeds to process the archive. -/
theorem C2_counterexample_second_zip_data_processed :
    BackgroundService.handleZipDataDecision
      { hasGitlabService := true, hasZipHandler := true,
        projectId := some "proj-1",
        pendingCommitMessage := BackgroundService.defaultCommitMessage,
        syncInProgress := true, portPresent := true }
      = .processed BackgroundService.defaultCommitMessage := rfl

/-- C2 (amended): the background coordinator has no busy guard: the
ZIP_DATA decision is independent of whether a sync is in progress, and
whenever the port, GitLab service, ZIP handler, and project id are
present it processes the archive -- it neither queues nor rejects it.
(The in-progress sync's completed-file counter is a local variable of
its own createBlobs call, which this dispatch does not touch.) -/
theorem C2_zip_data_during_sync_is_processed
    (s : BGState) (pid : String)
    (hp : s.portPresent = true) (hg : s.hasGitlabService = true)
    (hz : s.hasZipHandler = true) (hid : s.projectId = some pid) :
    (∀ b : Bool,
      BackgroundService.handleZipDataDecision { s with syncInProgress := b }
        = BackgroundService.handleZipDataDecision s) ∧
    BackgroundService.handleZipDataDecision s
      = .processed s.pendingCommitMessage := by
  constructor
  · intro b
    simp [BackgroundService.handleZipDataDecision]
  · simp [BackgroundService.handleZipDataDecision, hp, hg, hz, hid]

/-- Witness for C2: a concrete ready state with a custom pending
message. -/
theorem C2_zip_data_during_sync_is_processed_witness :
    BackgroundService.handleZipDataDecision
      { hasGitlabService := true, hasZipHandler := true,
        projectId := some "p77", pendingCommitMessage := "custom msg",
        syncInProgress := false, portPresent := true }
      = .processed "custom msg" :=
  (C2_zip_data_during_sync_is_processed
    { hasGitlabService := true, hasZipHandler := true,
      projectId := some "p77", pendingCommitMessage := "custom msg",
      syncInProgress := false, portPresent := true }
    "p77" rfl rfl rfl rfl).2

/-- C10: `pendingCommitMessage` is reset to the default only after a
successful upload; any failure leaves the whole state (in particular the
message) unchanged, so a custom message stored by SET_COMMIT_MESSAGE is
reused by the next upload attempt. -/
theorem C10_pending_commit_message_reset_only_on_success
    (s : BGState) (e m : String) (hm : m ≠ "") :
    (BackgroundService.handleZipDataAfter s (.error e) = s) ∧
    ((BackgroundService.handleZipDataAfter s (.ok ())).pendingCommitMessage
      = BackgroundService.defaultCommitMessage) ∧
    ((BackgroundService.setCommitMessage s (some m)).pendingCommitMessage = m) ∧
    (s.portPresent = true → s.hasGitlabService = true → s.hasZipHandler = true →
      ∀ pid, s.projectId = some pid →
        BackgroundService.handleZipDataDecision
            (BackgroundService.handleZipDataAfter
              (BackgroundService.setCommitMessage s (some m)) (.error e))
          = .processed m) := by
  refine ⟨rfl, rfl, ?_, ?_⟩
  · simp [BackgroundService.setCommitMessage, hm]
  · intro hp hg hz pid hid
    simp [BackgroundService.handleZipDataDecision,
      BackgroundService.handleZipDataAfter, BackgroundService.setCommitMessage,
      hm, hp, hg, hz, hid]

/-- Witness for C10: a failed upload after SET_COMMIT_MESSAGE "fix: x";
the next dispatch still carries "fix: x". -/
theorem C10_pending_commit_message_reset_only_on_success_witness :
    BackgroundService.handleZipDataDecision
      (BackgroundService.handleZipDataAfter
        (BackgroundService.setCommitMessage
          { hasGitlabService := true, hasZipHandler := true,
            projectId := some "p1",
            pendingCommitMessage := BackgroundService.defaultCommitMessage,
            syncInProgress := false, portPresent := true }
          (some "fix: x"))
        (.error "Repository not found"))
      = .processed "fix: x" :=
  (C10_pending_commit_message_reset_only_on_success
    { hasGitlabService := true, hasZipHandler := true,
      projectId := some "p1",
      pendingCommitMessage := BackgroundService.defaultCommitMessage,
      syncInProgress := false, portPresent := true }
    "Repository not found" "fix: x" (by decide)).2.2.2 rfl rfl rfl "p1" rfl
